import Mathlib

/-!
# Verification of the Credential & Token Security Subsystem

Shallow embedding of `apps/api/app/core/security.py` (password hashing,
field encryption, JWT access/refresh tokens, TOTP verification, backup
codes, password-strength policy) together with proofs of the spec's
testable properties.

Modelling conventions:
* machine time is a `Nat` of seconds since the epoch (Python
  `datetime.utcnow()` instants and `timedelta`s are converted to seconds);
* Python `dict` objects (JWT claim sets) are association lists with the
  insertion-order replace-or-append semantics of `dict.update`;
* the third-party cryptographic primitives the source delegates to
  (`jose.jwt`, `cryptography.fernet.Fernet`, `passlib` Argon2, `pyotp`
  HMAC-SHA1) are modelled by idealized functionalities that follow the
  libraries' documented structure and error behaviour, with the
  unforgeable digest/signature cores replaced by injective stand-ins.
-/

namespace SecurityPy

/-- A JSON claim value as used by the token layer of `security.py`:
either a string (e.g. the `type` claim) or an integral timestamp /
number (e.g. `exp`, `iat`, a subject id). -/
inductive ClaimValue where
  | s (v : String)
  | n (v : Nat)
  deriving DecidableEq, Repr

/-- A Python `dict` of claims: an ordered association list.  Keys are
unique in any dict the Python runtime produces; the operations below
implement `dict` semantics (first-match lookup, replace-or-append
update), which agree with CPython on such lists. -/
abbrev Claims := List (String × ClaimValue)

/-- `d[k]` lookup: the first binding of `k`. -/
def Claims.lookup (d : Claims) (k : String) : Option ClaimValue :=
  match d with
  | [] => none
  | (k', v) :: rest => if k' = k then some v else Claims.lookup rest k

/-- One step of `dict.update`: assigning `d[k] = v` replaces an existing
binding of `k` in place, otherwise appends the new binding (CPython
insertion-order semantics; dicts built by the runtime have unique keys,
on which this recursion is exactly those semantics). -/
def Claims.setKey (d : Claims) (k : String) (v : ClaimValue) : Claims :=
  match d with
  | [] => [(k, v)]
  | (k', v') :: rest =>
    if k' = k then (k, v) :: rest else (k', v') :: Claims.setKey rest k v

/-- `d.update(kvs)`: assign each pair in order. -/
def Claims.update (d : Claims) (kvs : List (String × ClaimValue)) : Claims :=
  kvs.foldl (fun acc p => Claims.setKey acc p.1 p.2) d

/-- `dict.copy()`: a shallow copy.  Claim values are immutable, so the
copy is extensionally the same list; what matters is that the source
mutates only the copy, never the argument. -/
def Claims.copy (d : Claims) : Claims := d

/-- The slice of the process-wide immutable `settings` object that
`security.py` reads (`app.core.config` is outside the subsystem; the
spec's Configuration data model lists exactly these fields). -/
structure Settings where
  ENCRYPTION_KEY : Nat
  JWT_SECRET_KEY : Nat
  JWT_ALGORITHM : String
  ACCESS_TOKEN_EXPIRE_MINUTES : Nat
  REFRESH_TOKEN_EXPIRE_DAYS : Nat
  deriving Repr

/-- A signed JWT as produced by `jose.jwt.encode(claims, key, algorithm)`:
the encoded string determines the payload, the algorithm header, and the
signature, which (idealizing the MAC as unforgeable) determines the
signing key.  Decoding recovers exactly these three components. -/
structure Jwt where
  claims : Claims
  key : Nat
  alg : String
  deriving Repr

/-- The `jose.JWTError` kinds relevant here: `ExpiredSignatureError`
(the expiry-class subtype) and every other validation failure
(bad signature, wrong algorithm), reported as one `invalid` kind. -/
inductive JWTError where
  | expired
  | invalid
  deriving DecidableEq, Repr

/-- The `expire` instant computed in `create_access_token`:
`utcnow() + expires_delta` when a delta is passed, otherwise
`utcnow() + timedelta(minutes=settings.ACCESS_TOKEN_EXPIRE_MINUTES)`. -/
def accessExpire (st : Settings) (now : Nat) (expires_delta : Option Nat) : Nat :=
  match expires_delta with
  | some d => now + d
  | none => now + st.ACCESS_TOKEN_EXPIRE_MINUTES * 60

/-- The `expire` instant computed in `create_refresh_token`:
`utcnow() + timedelta(days=settings.REFRESH_TOKEN_EXPIRE_DAYS)`. -/
def refreshExpire (st : Settings) (now : Nat) : Nat :=
  now + st.REFRESH_TOKEN_EXPIRE_DAYS * 86400

/-- `create_access_token(data, expires_delta=None)` from
`security.py:74-103`, with `now` the instant `datetime.utcnow()`
returns and `expires_delta` in seconds.  The pair returned is
(encoded token, the caller's `data` object after the call): the body
works on `to_encode = data.copy()` and never touches `data`. -/
def create_access_token (st : Settings) (now : Nat) (data : Claims)
    (expires_delta : Option Nat := none) : Jwt × Claims :=
  let to_encode := data.copy
  let expire := accessExpire st now expires_delta
  let to_encode := to_encode.update
    [("exp", .n expire), ("iat", .n now), ("type", .s "access")]
  (⟨to_encode, st.JWT_SECRET_KEY, st.JWT_ALGORITHM⟩, data)

/-- `create_refresh_token(data)` from `security.py:106-130`; same shape
as `create_access_token` but with the refresh lifetime (days) and
`type = "refresh"`. -/
def create_refresh_token (st : Settings) (now : Nat) (data : Claims) :
    Jwt × Claims :=
  let to_encode := data.copy
  let expire := refreshExpire st now
  let to_encode := to_encode.update
    [("exp", .n expire), ("iat", .n now), ("type", .s "refresh")]
  (⟨to_encode, st.JWT_SECRET_KEY, st.JWT_ALGORITHM⟩, data)

/-- `decode_token(token)` from `security.py:133-151`:
`jose.jwt.decode(token, key, algorithms=[alg])` verifies the signature
(here: the token's key and algorithm match the configured ones) and then
validates the `exp` claim against the current time with zero leeway —
`jose` raises `ExpiredSignatureError` exactly when `exp < now`.
No other claim (in particular not `type`) is enforced. -/
def decode_token (st : Settings) (now : Nat) (token : Jwt) :
    Except JWTError Claims :=
  if token.key = st.JWT_SECRET_KEY ∧ token.alg = st.JWT_ALGORITHM then
    match token.claims.lookup "exp" with
    | some (.n e) => if e < now then .error .expired else .ok token.claims
    | _ => .ok token.claims
  else
    .error .invalid

/-! ### FieldCipher: the Fernet model

`security.py` builds one process-wide `cipher = Fernet(settings.ENCRYPTION_KEY)`
and wraps it in `encrypt_field` / `decrypt_field`.  A Fernet token is
`version ‖ timestamp ‖ IV ‖ AES-CTR ciphertext ‖ HMAC(signing-key, all of the
foregoing)`, and `Fernet.decrypt` raises `InvalidToken` whenever the token is
malformed, truncated, carries a wrong HMAC, or was produced under another key.
The model below keeps that structure at the symbol level — a header naming the
key and the fresh IV/nonce, a length field, the payload, then the
authentication tag over the whole body — and idealizes the two unforgeable
primitives: the cipher keystream (payload symbols appear directly; decryption
with the right key inverts exactly) and the HMAC (the tag is a verbatim copy
of the authenticated body, so tag verification detects every modification,
which is the ideal-MAC functionality). -/

/-- `value.encode()`: the symbol sequence of a plaintext string (one
symbol per character, the character's codepoint). -/
def strSyms (m : String) : List Nat := m.data.map Char.toNat

/-- `bytes.decode()`: rebuild the string from its symbols. -/
def symsStr (l : List Nat) : String := String.mk (l.map Char.ofNat)

/-- `cryptography.fernet.InvalidToken`: the single integrity-failure
error Fernet decryption raises. -/
inductive DecryptError where
  | invalidToken
  deriving DecidableEq, Repr

/-- Idealized `Fernet.encrypt` under `key` with the fresh per-call
randomness `nonce`: header `key, nonce, payload length`, then the
payload, then the authentication tag over that whole body. -/
def fernetEncrypt (key nonce : Nat) (m : String) : List Nat :=
  (key :: nonce :: (strSyms m).length :: strSyms m) ++
    (key :: nonce :: (strSyms m).length :: strSyms m)

/-- Idealized `Fernet.decrypt` under `key`: parse the header, check the
key, the declared length against the actual token length, and the
authentication tag; on any mismatch raise `InvalidToken`, otherwise
return the decrypted payload. -/
def fernetDecrypt (key : Nat) (blob : List Nat) : Except DecryptError String :=
  if blob.getD 0 0 = key ∧ blob.length = 2 * (3 + blob.getD 2 0) ∧
      blob.take (3 + blob.getD 2 0) = blob.drop (3 + blob.getD 2 0) then
    .ok (symsStr ((blob.drop 3).take (blob.getD 2 0)))
  else
    .error .invalidToken

/-- `encrypt_field(value)` from `security.py:59-61`:
`cipher.encrypt(value.encode()).decode()`, with `nonce` the fresh
randomness Fernet draws for this call. -/
def encrypt_field (st : Settings) (nonce : Nat) (value : String) : List Nat :=
  fernetEncrypt st.ENCRYPTION_KEY nonce value

/-- `decrypt_field(encrypted_value)` from `security.py:64-66`:
`cipher.decrypt(encrypted_value.encode()).decode()`. -/
def decrypt_field (st : Settings) (blob : List Nat) : Except DecryptError String :=
  fernetDecrypt st.ENCRYPTION_KEY blob

/-! ### PasswordHasher: the passlib `CryptContext` model

`security.py` builds `pwd_context = CryptContext(schemes=["argon2"])` and
`verify_password` returns `pwd_context.verify(plain, hashed)` directly.
passlib's `verify` first identifies the scheme of the stored hash string; a
string matching no configured scheme makes it raise `UnknownHashError` (a
`ValueError`), it does not return `False`.  The memory-hard Argon2id digest is
idealized as a perfect keyed digest: a well-formed hash record carries its
salt and the digest, and the digest of a candidate password matches exactly
when the passwords are equal. -/

/-- A stored password-hash string as passlib's identify step classifies
it: a well-formed Argon2 record (salt plus idealized digest of the
hashed password), or a string matching no configured scheme. -/
inductive PHash where
  | argon2 (salt : Nat) (digestOf : String)
  | malformed (s : String)
  deriving DecidableEq, Repr

/-- `passlib.exc.UnknownHashError`: raised when the stored hash cannot
be identified as any configured scheme. -/
inductive PasslibError where
  | unknownHash
  deriving DecidableEq, Repr

/-- `hash_password(password)` from `security.py:29-31`:
`pwd_context.hash(password)` with a fresh random `salt`. -/
def hash_password (password : String) (salt : Nat) : PHash :=
  .argon2 salt password

/-- `verify_password(plain_password, hashed_password)` from
`security.py:34-36`: `pwd_context.verify(plain_password,
hashed_password)`, which raises `UnknownHashError` on a hash string
matching no configured scheme and otherwise reports whether the
recomputed digest matches. -/
def verify_password (plain_password : String) (hashed_password : PHash) :
    Except PasslibError Bool :=
  match hashed_password with
  | .argon2 _ digestOf => .ok (digestOf = plain_password)
  | .malformed _ => .error .unknownHash

/-! ### PasswordPolicy -/

/-- The fixed special-character set of `validate_password_strength`
(`security.py:249`). -/
def special_chars : String := "!@#$%^&*()_+-=[]\x7b\x7d|;:,.<>?"

/-- `validate_password_strength(password)` from `security.py:224-257`:
the ordered checks — length ≥ 8, an uppercase letter, a lowercase
letter, a digit, a special character — returning on the first failure
with its message.  (Python's `str.isupper`/`islower`/`isdigit` agree
with `Char.isUpper`/`isLower`/`isDigit` on the ASCII range this policy
is about.) -/
def validate_password_strength (password : String) : Bool × Option String :=
  if password.length < 8 then
    (false, some "Password must be at least 8 characters long")
  else if password.data.any (fun c => c.isUpper) = false then
    (false, some "Password must contain at least one uppercase letter")
  else if password.data.any (fun c => c.isLower) = false then
    (false, some "Password must contain at least one lowercase letter")
  else if password.data.any (fun c => c.isDigit) = false then
    (false, some "Password must contain at least one digit")
  else if password.data.any (fun c => special_chars.data.contains c) = false then
    (false, some "Password must contain at least one special character")
  else
    (true, none)

/-! ### Backup codes -/

/-- One uppercase hexadecimal digit. -/
def hexUpperDigit (n : Nat) : Char :=
  "0123456789ABCDEF".data.getD n '0'

/-- `secrets.token_hex(4).upper()`: the 4-byte value `v` rendered as 8
hexadecimal characters, uppercased. -/
def token_hex4_upper (v : Nat) : String :=
  String.mk ((List.range 8).map (fun j => hexUpperDigit (v / 16 ^ (7 - j) % 16)))

/-- `generate_backup_codes(count=10)` from `security.py:201-216`: the
loop appending one `secrets.token_hex(4).upper()` code per iteration;
`rng i` is the `i`-th 4-byte draw of the CSPRNG. -/
def generate_backup_codes (rng : Nat → Nat) (count : Nat := 10) : List String :=
  (List.range count).map (fun i => token_hex4_upper (rng i % 2 ^ 32))

/-! ### MFAService: the pyotp TOTP model

`verify_totp` calls `pyotp.TOTP(secret).verify(code, valid_window=1)` with the
default 30-second interval and 6 digits.  pyotp computes the time-step counter
`timecode(now) = now / 30` and string-compares the presented code against the
codes generated for the counters `timecode-1`, `timecode`, `timecode+1`.  A
code is the HMAC-SHA1 dynamic-truncation value of (secret, counter) reduced
modulo 10^6 and zero-padded to 6 digits; the unforgeable pre-truncation
digest is idealized as the injective pairing `Nat.pair secret counter`, and
the modulo-10^6 reduction is kept as in the source. -/

/-- `timecode(for_time)`: the 30-second time-step counter. -/
def tstep (now : Nat) : Nat := now / 30

/-- One decimal digit character. -/
def decDigit (n : Nat) : Char :=
  "0123456789".data.getD n '0'

/-- The idealized HOTP pre-truncation value for (secret, counter):
HMAC-SHA1 dynamic truncation, modelled injectively. -/
def hotp_value (secret counter : Nat) : Nat := Nat.pair secret counter

/-- `generate_otp(counter)`: the pre-truncation value reduced modulo
10^6 and zero-padded to the 6 configured digits. -/
def totp_at (secret counter : Nat) : String :=
  String.mk ((List.range 6).map
    (fun j => decDigit (hotp_value secret counter / 10 ^ (5 - j) % 10)))

/-- `verify_totp(secret, code)` from `security.py:180-193`:
`pyotp.TOTP(secret).verify(code, valid_window=1)` at current time
`now` — true exactly when the presented string equals the code of the
current step or of one step either side.  (At `tstep now = 0` the
`-1` offset saturates to step 0.)  The comparison is total: malformed
input simply fails every comparison. -/
def verify_totp (secret : Nat) (code : String) (now : Nat) : Bool :=
  decide (code = totp_at secret (tstep now - 1) ∨
    code = totp_at secret (tstep now) ∨
    code = totp_at secret (tstep now + 1))

/-- A concrete configuration used to instantiate universally quantified
theorems on closed inputs: 15-minute access tokens, 7-day refresh
tokens. -/
def sampleSettings : Settings :=
  { ENCRYPTION_KEY := 99
    JWT_SECRET_KEY := 7
    JWT_ALGORITHM := "HS256"
    ACCESS_TOKEN_EXPIRE_MINUTES := 15
    REFRESH_TOKEN_EXPIRE_DAYS := 7 }

/-- A second concrete configuration, identical except for a different
encryption key. -/
def sampleSettings2 : Settings :=
  { sampleSettings with ENCRYPTION_KEY := 100 }

/-- A concrete caller claim set. -/
def sampleClaims : Claims := [("sub", .s "42")]

/-- A concrete caller claim set that collides with every reserved
claim name. -/
def collidingClaims : Claims :=
  [("sub", .s "42"), ("type", .s "evil"), ("exp", .n 5), ("iat", .n 6)]

/-! ### Dictionary lemmas -/

theorem Claims.lookup_setKey_self (d : Claims) (k : String) (v : ClaimValue) :
    (d.setKey k v).lookup k = some v := by
  induction d with
  | nil => simp [Claims.setKey, Claims.lookup]
  | cons p rest ih =>
    obtain ⟨k', v'⟩ := p
    by_cases hk : k' = k
    · simp [Claims.setKey, Claims.lookup, hk]
    · simp [Claims.setKey, if_neg hk, Claims.lookup, ih]

theorem Claims.lookup_setKey_ne (d : Claims) (k k' : String) (v : ClaimValue)
    (hne : k ≠ k') : (d.setKey k v).lookup k' = d.lookup k' := by
  induction d with
  | nil => simp [Claims.setKey, Claims.lookup, hne]
  | cons p rest ih =>
    obtain ⟨k₀, v₀⟩ := p
    by_cases hk : k₀ = k
    · subst hk
      simp [Claims.setKey, Claims.lookup, hne]
    · simp only [Claims.setKey, if_neg hk, Claims.lookup, ih]

/-- Looking up the three reserved claims after the `to_encode.update`
call of the token constructors. -/
theorem lookup_update_reserved (d : Claims) (e i : Nat) (t : String) :
    (d.update [("exp", .n e), ("iat", .n i), ("type", .s t)]).lookup "exp"
        = some (.n e) ∧
      (d.update [("exp", .n e), ("iat", .n i), ("type", .s t)]).lookup "iat"
        = some (.n i) ∧
      (d.update [("exp", .n e), ("iat", .n i), ("type", .s t)]).lookup "type"
        = some (.s t) := by
  simp only [Claims.update, List.foldl_cons, List.foldl_nil]
  refine ⟨?_, ?_, ?_⟩
  · rw [Claims.lookup_setKey_ne _ _ _ _ (by decide),
      Claims.lookup_setKey_ne _ _ _ _ (by decide),
      Claims.lookup_setKey_self]
  · rw [Claims.lookup_setKey_ne _ _ _ _ (by decide),
      Claims.lookup_setKey_self]
  · rw [Claims.lookup_setKey_self]

/-! ### Token claims (C1, C5, C6, C10) -/

/-- C1: for every claim set `c`, decoding a freshly issued access token
succeeds and yields a claim set whose `type` claim is `"access"` and
whose `exp` claim is the issuance time plus the supplied
`expires_delta` when one is given, otherwise plus the configured
access-token lifetime; and once current time advances past that `exp`,
decoding fails with the expiry-class error
(`jose.ExpiredSignatureError`). -/
theorem access_token_decode_roundtrip_and_expiry
    (st : Settings) (c : Claims) (now : Nat) (ed : Option Nat) (now2 : Nat)
    (hlate : accessExpire st now ed < now2) :
    decode_token st now (create_access_token st now c ed).1
        = .ok (create_access_token st now c ed).1.claims ∧
      ((create_access_token st now c ed).1.claims.lookup "type"
        = some (.s "access")) ∧
      ((create_access_token st now c ed).1.claims.lookup "exp"
        = some (.n (accessExpire st now ed))) ∧
      decode_token st now2 (create_access_token st now c ed).1
        = .error .expired := by
  obtain ⟨hexp, -, htype⟩ :=
    lookup_update_reserved c.copy (accessExpire st now ed) now "access"
  have hnow : ¬ accessExpire st now ed < now := by
    cases ed <;> simp [accessExpire]
  refine ⟨?_, htype, hexp, ?_⟩
  · simp [decode_token, create_access_token, hexp, hnow]
  · simp [decode_token, create_access_token, hexp, hlate]

/-- Witness for C1 at a concrete configuration: issue at `t = 1000`
with the default 15-minute lifetime (`exp = 1900`) and decode at
`t = 1901`. -/
theorem access_token_decode_roundtrip_and_expiry_witness :
    decode_token sampleSettings 1901
        (create_access_token sampleSettings 1000 sampleClaims none).1
      = .error .expired :=
  (access_token_decode_roundtrip_and_expiry sampleSettings sampleClaims
    1000 none 1901 (by decide)).2.2.2

/-- C5: when the caller's claim dictionary already binds a reserved
name (`exp`, `iat` or `type`), both token constructors silently
replace the caller's value with the subsystem's reserved value in the
encoded token; issuance is total, so no error is raised. -/
theorem reserved_claims_silently_overridden
    (st : Settings) (now : Nat) (d : Claims) (ed : Option Nat)
    (_hcollide : (d.lookup "exp").isSome ∨ (d.lookup "iat").isSome ∨
      (d.lookup "type").isSome) :
    ((create_access_token st now d ed).1.claims.lookup "exp"
        = some (.n (accessExpire st now ed)) ∧
      (create_access_token st now d ed).1.claims.lookup "iat"
        = some (.n now) ∧
      (create_access_token st now d ed).1.claims.lookup "type"
        = some (.s "access")) ∧
      ((create_refresh_token st now d).1.claims.lookup "exp"
        = some (.n (refreshExpire st now)) ∧
      (create_refresh_token st now d).1.claims.lookup "iat"
        = some (.n now) ∧
      (create_refresh_token st now d).1.claims.lookup "type"
        = some (.s "refresh")) := by
  exact ⟨lookup_update_reserved d.copy (accessExpire st now ed) now "access",
    lookup_update_reserved d.copy (refreshExpire st now) now "refresh"⟩

/-- Witness for C5: a caller dictionary binding `type = "evil"`,
`exp = 5` and `iat = 6` still yields a token whose `type` claim is
`"access"`. -/
theorem reserved_claims_silently_overridden_witness :
    (create_access_token sampleSettings 1000 collidingClaims none).1.claims.lookup
      "type" = some (.s "access") :=
  (reserved_claims_silently_overridden sampleSettings 1000 collidingClaims
    none (by decide)).1.2.2

/-- C6: decoding a freshly issued refresh token succeeds and returns
its claims with `type = "refresh"`: `decode_token` never inspects the
`type` claim, so a refresh token is accepted wherever an access token
would be. -/
theorem decode_accepts_refresh_token (st : Settings) (now : Nat) (c : Claims) :
    decode_token st now (create_refresh_token st now c).1
        = .ok (create_refresh_token st now c).1.claims ∧
      (create_refresh_token st now c).1.claims.lookup "type"
        = some (.s "refresh") := by
  obtain ⟨hexp, -, htype⟩ :=
    lookup_update_reserved c.copy (refreshExpire st now) now "refresh"
  have hnow : ¬ refreshExpire st now < now := by simp [refreshExpire]
  exact ⟨by simp [decode_token, create_refresh_token, hexp, hnow], htype⟩

/-- C10: token issuance does not mutate its input dictionary — the
reserved claims are added to `to_encode = data.copy()` only, so after
either constructor returns, the caller's `data` is unchanged. -/
theorem issuance_does_not_mutate_input
    (st : Settings) (now : Nat) (d : Claims) (ed : Option Nat) :
    (create_access_token st now d ed).2 = d ∧
      (create_refresh_token st now d).2 = d :=
  ⟨rfl, rfl⟩

/-! ### List index lemmas used by the cipher proofs -/

theorem getD_set_self (l : List Nat) {i : Nat} (v : Nat) (h : i < l.length) :
    (l.set i v).getD i 0 = v := by
  rw [List.getD_eq_getElem _ _ (by simpa using h)]
  simp

theorem getD_set_ne (l : List Nat) {i j : Nat} (v : Nat) (h : i ≠ j) :
    (l.set i v).getD j 0 = l.getD j 0 := by
  simp only [List.getD_eq_getD_get?, List.get?_eq_getElem?]
  rw [List.getElem?_set_ne h]

theorem getD_take_lt (l : List Nat) {n j : Nat} (h : j < n) :
    (l.take n).getD j 0 = l.getD j 0 := by
  simp only [List.getD_eq_getD_get?, List.get?_eq_getElem?]
  rw [List.getElem?_take_of_lt h]

theorem getD_drop (l : List Nat) (n j : Nat) :
    (l.drop n).getD j 0 = l.getD (n + j) 0 := by
  simp only [List.getD_eq_getD_get?, List.get?_eq_getElem?]
  rw [List.getElem?_drop]

/-! ### Cipher lemmas -/

theorem fernetEncrypt_body_length (key nonce : Nat) (m : String) :
    (key :: nonce :: (strSyms m).length :: strSyms m).length
      = 3 + (strSyms m).length := by
  simp; omega

theorem fernetEncrypt_length (key nonce : Nat) (m : String) :
    (fernetEncrypt key nonce m).length = 2 * (3 + (strSyms m).length) := by
  simp [fernetEncrypt]; omega

/-- The authentication tag mirrors the body symbol for symbol. -/
theorem fernetEncrypt_getD_mirror (key nonce : Nat) (m : String) {t : Nat}
    (ht : t < 3 + (strSyms m).length) :
    (fernetEncrypt key nonce m).getD (3 + (strSyms m).length + t) 0
      = (fernetEncrypt key nonce m).getD t 0 := by
  have hbl := fernetEncrypt_body_length key nonce m
  unfold fernetEncrypt
  rw [List.getD_append_right _ _ _ _ (by rw [hbl]; omega),
    List.getD_append _ _ _ _ (by rw [hbl]; exact ht), hbl,
    Nat.add_sub_cancel_left]

/-! ### FieldCipher theorems (C2, C3) -/

/-- C2: for every plaintext string `m` (and every fresh nonce Fernet
draws), decrypting the encryption of `m` under the process-wide key
returns `m`: `decrypt_field(encrypt_field(m)) == m`. -/
theorem decrypt_encrypt_roundtrip (st : Settings) (nonce : Nat) (m : String) :
    decrypt_field st (encrypt_field st nonce m) = .ok m := by
  set key := st.ENCRYPTION_KEY
  have hbl := fernetEncrypt_body_length key nonce m
  have htake : (fernetEncrypt key nonce m).take (3 + (strSyms m).length)
      = key :: nonce :: (strSyms m).length :: strSyms m := by
    unfold fernetEncrypt
    rw [← hbl, List.take_left]
  have hdrop : (fernetEncrypt key nonce m).drop (3 + (strSyms m).length)
      = key :: nonce :: (strSyms m).length :: strSyms m := by
    unfold fernetEncrypt
    rw [← hbl, List.drop_left]
  have h2 : (fernetEncrypt key nonce m).getD 2 0 = (strSyms m).length := rfl
  have hcond : (fernetEncrypt key nonce m).getD 0 0 = key ∧
      (fernetEncrypt key nonce m).length
        = 2 * (3 + (fernetEncrypt key nonce m).getD 2 0) ∧
      (fernetEncrypt key nonce m).take (3 + (fernetEncrypt key nonce m).getD 2 0)
        = (fernetEncrypt key nonce m).drop
            (3 + (fernetEncrypt key nonce m).getD 2 0) := by
    refine ⟨rfl, ?_, ?_⟩
    · rw [h2]; exact fernetEncrypt_length key nonce m
    · rw [h2, htake, hdrop]
  show fernetDecrypt key (fernetEncrypt key nonce m) = .ok m
  rw [fernetDecrypt, if_pos hcond, h2]
  have hdrop3 : (fernetEncrypt key nonce m).drop 3
      = strSyms m ++ (key :: nonce :: (strSyms m).length :: strSyms m) := rfl
  rw [hdrop3, List.take_left]
  simp only [symsStr, strSyms, List.map_map]
  congr 1
  have : ∀ c : Char, (Char.ofNat ∘ Char.toNat) c = id c := by
    intro c
    simp [Char.ofNat_toNat]
  rw [funext this, List.map_id]

/-- C3: `decrypt_field` rejects, with the integrity error
`InvalidToken`, every blob obtained from a valid ciphertext by flipping
a single symbol, by truncation, or by encrypting under a different
key — in particular it never returns a plaintext different from the
one originally encrypted. -/
theorem decrypt_rejects_tampered_blobs
    (st st2 : Settings) (nonce : Nat) (m : String) (i v j : Nat)
    (hi : i < (encrypt_field st nonce m).length)
    (hv : v ≠ (encrypt_field st nonce m).getD i 0)
    (hj : j < (encrypt_field st nonce m).length)
    (hkey : st2.ENCRYPTION_KEY ≠ st.ENCRYPTION_KEY) :
    decrypt_field st ((encrypt_field st nonce m).set i v)
        = .error .invalidToken ∧
      decrypt_field st ((encrypt_field st nonce m).take j)
        = .error .invalidToken ∧
      decrypt_field st (encrypt_field st2 nonce m) = .error .invalidToken := by
  set key := st.ENCRYPTION_KEY with hkeydef
  have h2 : (fernetEncrypt key nonce m).getD 2 0 = (strSyms m).length := rfl
  have h0 : (fernetEncrypt key nonce m).getD 0 0 = key := rfl
  have hlen := fernetEncrypt_length key nonce m
  refine ⟨?_, ?_, ?_⟩
  · -- a single flipped symbol
    show fernetDecrypt key ((fernetEncrypt key nonce m).set i v)
      = .error .invalidToken
    rw [fernetDecrypt, if_neg]
    rintro ⟨hc0, hclen, hctag⟩
    rw [List.length_set] at hclen
    by_cases hi0 : i = 0
    · subst hi0
      rw [getD_set_self _ v (by simpa [encrypt_field] using hi)] at hc0
      exact hv (hc0.trans h0.symm)
    · by_cases hi2 : i = 2
      · subst hi2
        rw [getD_set_self _ v (by simpa [encrypt_field] using hi),
          hlen] at hclen
        have hvL : v = (strSyms m).length := by omega
        exact hv (hvL.trans h2.symm)
      · rw [getD_set_ne _ v hi2, h2] at hclen hctag
        have hiB : i < 2 * (3 + (strSyms m).length) := by
          simpa [encrypt_field, hlen] using hi
        by_cases hifst : i < 3 + (strSyms m).length
        · have := congrArg (fun l => l.getD i 0) hctag
          simp only at this
          rw [getD_take_lt _ hifst, getD_drop,
            getD_set_self _ v (by simpa [List.length_set, hlen] using hiB),
            getD_set_ne _ v (by omega),
            fernetEncrypt_getD_mirror key nonce m hifst] at this
          exact hv (this.trans (by simp [encrypt_field]))
        · have htB : i - (3 + (strSyms m).length) < 3 + (strSyms m).length := by
            omega
          have ht : 3 + (strSyms m).length + (i - (3 + (strSyms m).length))
              = i := by omega
          have heq := congrArg (fun l => l.getD (i - (3 + (strSyms m).length)) 0)
            hctag
          simp only at heq
          rw [getD_take_lt _ htB, getD_drop, ht,
            getD_set_self _ v (by rw [hlen]; exact hiB),
            getD_set_ne _ v (by omega)] at heq
          have hmir := fernetEncrypt_getD_mirror key nonce m htB
          rw [ht] at hmir
          exact hv ((hmir.trans heq).symm)
  · -- truncation
    show fernetDecrypt key ((fernetEncrypt key nonce m).take j)
      = .error .invalidToken
    rw [fernetDecrypt, if_neg]
    rintro ⟨-, hclen, -⟩
    have hjlen : j < 2 * (3 + (strSyms m).length) := by
      simpa [encrypt_field, hlen] using hj
    rw [List.length_take, hlen, Nat.min_eq_left (by omega)] at hclen
    by_cases hj3 : j < 3
    · omega
    · rw [getD_take_lt _ (by omega), h2] at hclen
      omega
  · -- wrong key
    show fernetDecrypt key (fernetEncrypt st2.ENCRYPTION_KEY nonce m)
      = .error .invalidToken
    rw [fernetDecrypt, if_neg]
    rintro ⟨hc0, -, -⟩
    exact hkey hc0

/-- Witness for C3 on the concrete plaintext `"pw"`, nonce `5`,
`sampleSettings` (key 99) and `sampleSettings2` (key 100): flipping
symbol 4, truncating to 9 symbols, and decrypting a foreign-key blob
all fail with `InvalidToken`. -/
theorem decrypt_rejects_tampered_blobs_witness :
    decrypt_field sampleSettings ((encrypt_field sampleSettings 5 "pw").set 4 0)
        = .error .invalidToken ∧
      decrypt_field sampleSettings ((encrypt_field sampleSettings 5 "pw").take 9)
        = .error .invalidToken ∧
      decrypt_field sampleSettings (encrypt_field sampleSettings2 5 "pw")
        = .error .invalidToken :=
  decrypt_rejects_tampered_blobs sampleSettings sampleSettings2 5 "pw" 4 0 9
    (by decide) (by decide) (by decide) (by decide)

/-! ### PasswordHasher theorems (C4) -/

/-- Counterexample to C4 as stated: on a hash string that is not a
well-formed password hash, `verify_password` does not return `false` —
it propagates passlib's `UnknownHashError`. -/
theorem verify_password_malformed_counterexample :
    verify_password "hunter2!" (PHash.malformed "not-a-hash")
        = .error .unknownHash ∧
      verify_password "hunter2!" (PHash.malformed "not-a-hash")
        ≠ .ok false :=
  ⟨rfl, fun h => Except.noConfusion h⟩

/-- C4 amended: for every password `p` and every string that is not a
well-formed password hash, `verify_password` raises passlib's
`UnknownHashError` (it neither returns `false` nor returns at all);
on well-formed hashes it returns the boolean comparison result. -/
theorem verify_password_malformed_raises (p s : String) (salt : Nat)
    (q : String) :
    verify_password p (.malformed s) = .error .unknownHash ∧
      verify_password p (hash_password q salt) = .ok (q = p) :=
  ⟨rfl, rfl⟩

/-! ### PasswordPolicy theorems (C8) -/

/-- C8: `validate_password_strength` runs its checks in the fixed order
length ≥ 8, uppercase, lowercase, digit, special character, and returns
`(false, reason)` for the first failing check only, with the reason
naming that check; `"short1!"` fails on length, `"alllowercase1!"` on
uppercase, and `"ValidPass123!"` is valid with no reason. -/
theorem validate_password_strength_first_failure (p : String) :
    (p.length < 8 →
      validate_password_strength p
        = (false, some "Password must be at least 8 characters long")) ∧
    (¬ p.length < 8 → p.data.any (fun c => c.isUpper) = false →
      validate_password_strength p
        = (false, some "Password must contain at least one uppercase letter")) ∧
    (¬ p.length < 8 → p.data.any (fun c => c.isUpper) = true →
      p.data.any (fun c => c.isLower) = false →
      validate_password_strength p
        = (false, some "Password must contain at least one lowercase letter")) ∧
    (¬ p.length < 8 → p.data.any (fun c => c.isUpper) = true →
      p.data.any (fun c => c.isLower) = true →
      p.data.any (fun c => c.isDigit) = false →
      validate_password_strength p
        = (false, some "Password must contain at least one digit")) ∧
    (¬ p.length < 8 → p.data.any (fun c => c.isUpper) = true →
      p.data.any (fun c => c.isLower) = true →
      p.data.any (fun c => c.isDigit) = true →
      p.data.any (fun c => special_chars.data.contains c) = false →
      validate_password_strength p
        = (false, some "Password must contain at least one special character")) ∧
    (¬ p.length < 8 → p.data.any (fun c => c.isUpper) = true →
      p.data.any (fun c => c.isLower) = true →
      p.data.any (fun c => c.isDigit) = true →
      p.data.any (fun c => special_chars.data.contains c) = true →
      validate_password_strength p = (true, none)) ∧
    validate_password_strength "short1!"
      = (false, some "Password must be at least 8 characters long") ∧
    validate_password_strength "alllowercase1!"
      = (false, some "Password must contain at least one uppercase letter") ∧
    validate_password_strength "ValidPass123!" = (true, none) := by
  refine ⟨?_, ?_, ?_, ?_, ?_, ?_, by decide, by decide, by decide⟩
  · intro h1
    simp [validate_password_strength, h1]
  · intro h1 h2
    simp [validate_password_strength, h1, h2]
  · intro h1 h2 h3
    simp [validate_password_strength, h1, h2, h3]
  · intro h1 h2 h3 h4
    simp [validate_password_strength, h1, h2, h3, h4]
  · intro h1 h2 h3 h4 h5
    simp [validate_password_strength, h1, h2, h3, h4]
    simpa using h5
  · intro h1 h2 h3 h4 h5
    simp [validate_password_strength, h1, h2, h3, h4]
    simpa using h5

/-- Witness for C8: `"alllowercase1!"` passes the length check and then
fails the uppercase check. -/
theorem validate_password_strength_first_failure_witness :
    validate_password_strength "alllowercase1!"
      = (false, some "Password must contain at least one uppercase letter") :=
  (validate_password_strength_first_failure "alllowercase1!").2.1
    (by decide) (by decide)

/-! ### Backup-code theorems (C9) -/

theorem hexUpperDigit_mem : ∀ k < 16, hexUpperDigit k ∈ "0123456789ABCDEF".data := by
  decide

/-- C9: for every count `n` and every state of the secure generator,
`generate_backup_codes` returns exactly `n` codes, each exactly 8
characters long, every character drawn from `[0-9A-F]`. -/
theorem generate_backup_codes_spec (rng : Nat → Nat) (n : Nat) :
    (generate_backup_codes rng n).length = n ∧
      ∀ code ∈ generate_backup_codes rng n, code.length = 8 ∧
        ∀ c ∈ code.data, c ∈ "0123456789ABCDEF".data := by
  constructor
  · simp [generate_backup_codes]
  · intro code hcode
    simp only [generate_backup_codes, List.mem_map, List.mem_range] at hcode
    obtain ⟨i, -, rfl⟩ := hcode
    constructor
    · simp [token_hex4_upper, String.length]
    · intro c hc
      obtain ⟨j, -, rfl⟩ := List.mem_map.mp hc
      exact hexUpperDigit_mem _ (Nat.mod_lt _ (by norm_num))

/-- Witness for C9 with the generator pinned to `0xDEADBEEF`: ten
codes come back and the produced code has 8 characters. -/
theorem generate_backup_codes_spec_witness :
    (generate_backup_codes (fun _ => 3735928559) 10).length = 10 ∧
      (token_hex4_upper (3735928559 % 2 ^ 32)).length = 8 :=
  ⟨(generate_backup_codes_spec (fun _ => 3735928559) 10).1,
    ((generate_backup_codes_spec (fun _ => 3735928559) 10).2
      (token_hex4_upper (3735928559 % 2 ^ 32)) (by decide)).1⟩

/-! ### TOTP theorems (C7) -/

theorem totp_at_length (s c : Nat) : (totp_at s c).length = 6 := by
  simp [totp_at, String.length]

theorem decDigit_isDigit : ∀ k < 10, (decDigit k).isDigit = true := by
  decide

theorem totp_at_digits (s c : Nat) :
    ∀ ch ∈ (totp_at s c).data, ch.isDigit = true := by
  intro ch hch
  obtain ⟨j, -, rfl⟩ := List.mem_map.mp hch
  exact decDigit_isDigit _ (Nat.mod_lt _ (by norm_num))

/-- Counterexample to C7 as stated: a code computed for a time step
more than one period away from the current one can still verify,
because codes are only 6 digits and truncation collides across steps.
At `now = 60` (step 2, window 1–3), the code for the far step 500002
coincides with the current code and is accepted. -/
theorem verify_totp_far_step_counterexample :
    tstep 60 + 1 < 500002 ∧ verify_totp 0 (totp_at 0 500002) 60 = true := by
  constructor
  · decide
  · decide

/-- C7 amended: `verify_totp` accepts the codes computed for the
current 30-second step and for one step either side; it returns
`false` — and, being a total boolean comparison, never raises — for
every other presented string: any string differing from the three
in-window codes, in particular any string of the wrong length, any
string with a non-digit character, and the code of a step more than
one period away provided its 6-digit value differs from the in-window
codes (truncation to 6 digits admits collisions, see the
counterexample). -/
theorem verify_totp_window_spec (secret now t : Nat) (code : String) :
    verify_totp secret (totp_at secret (tstep now)) now = true ∧
    verify_totp secret (totp_at secret (tstep now - 1)) now = true ∧
    verify_totp secret (totp_at secret (tstep now + 1)) now = true ∧
    (¬ (code = totp_at secret (tstep now - 1) ∨
        code = totp_at secret (tstep now) ∨
        code = totp_at secret (tstep now + 1)) →
      verify_totp secret code now = false) ∧
    (code.length ≠ 6 → verify_totp secret code now = false) ∧
    ((∃ ch ∈ code.data, ch.isDigit = false) →
      verify_totp secret code now = false) ∧
    ((totp_at secret t ≠ totp_at secret (tstep now - 1) ∧
      totp_at secret t ≠ totp_at secret (tstep now) ∧
      totp_at secret t ≠ totp_at secret (tstep now + 1)) →
      verify_totp secret (totp_at secret t) now = false) := by
  refine ⟨by simp [verify_totp], by simp [verify_totp], by simp [verify_totp],
    fun h => decide_eq_false h, ?_, ?_, ?_⟩
  · intro h
    apply decide_eq_false
    rintro (rfl | rfl | rfl) <;> exact h (totp_at_length ..)
  · rintro ⟨ch, hch, hnd⟩
    apply decide_eq_false
    rintro (rfl | rfl | rfl) <;>
      · have hd := totp_at_digits _ _ ch hch
        rw [hnd] at hd
        exact Bool.noConfusion hd
  · rintro ⟨h1, h2, h3⟩
    apply decide_eq_false
    rintro (h | h | h)
    exacts [h1 h, h2 h, h3 h]

/-- Witness for C7: at `now = 60` the current-step code verifies and
the 5-character string `"12345"` is rejected. -/
theorem verify_totp_window_spec_witness :
    verify_totp 0 (totp_at 0 (tstep 60)) 60 = true ∧
      verify_totp 0 "12345" 60 = false :=
  ⟨(verify_totp_window_spec 0 60 7 "12345").1,
    (verify_totp_window_spec 0 60 7 "12345").2.2.2.2.1 (by decide)⟩

end SecurityPy
